import Mathlib

/-!
Verification of the node-api binding layer (src/src/napi.rs, src/src/lib.rs,
src/examples/hello-world/src/lib.rs) against its natural-language
specification.  The Rust code is shallowly embedded: the abstract host handles
become natural numbers, the host calls that sit behind the C boundary become
fields of an explicit environment record, Rust Result values become Except,
and a Rust process abort (an unwrap or expect that fails) becomes the crash
constructor of RResult.
-/

namespace NodeApi

/-- Host value handle.  Abstract in the source (napi_value); modelled as a
natural number. -/
abbrev NapiValue := Nat

/-- Outcome of running a piece of Rust code that may abort the process:
either a normal value or a crash carrying the abort message.  An unwrap or
expect that fails in the source is modelled by the crash constructor. -/
inductive RResult (α : Type) where
  | ok : α → RResult α
  | crash : String → RResult α
  deriving DecidableEq

/-- Embedding of the napi_status C enumeration from the bindings used by
src/src/napi.rs.  These thirteen variants are exactly the values of the Rust
type matched in the From impl at src/src/napi.rs lines 59-77. -/
inductive napi_status where
  | napi_ok
  | napi_invalid_arg
  | napi_object_expected
  | napi_string_expected
  | napi_name_expected
  | napi_function_expected
  | napi_number_expected
  | napi_boolean_expected
  | napi_array_expected
  | napi_generic_failure
  | napi_pending_exception
  | napi_cancelled
  | napi_status_last
  deriving DecidableEq

/-- Embedding of the NapiErrorType enumeration, src/src/napi.rs lines 43-57. -/
inductive NapiErrorType where
  | InvalidArg
  | ObjectExpected
  | StringExpected
  | NameExpected
  | FunctionExpected
  | NumberExpected
  | BooleanExpected
  | ArrayExpected
  | GenericFailure
  | PendingException
  | Cancelled
  | StatusLast
  deriving DecidableEq

/-- Embedding of the From napi_status impl for NapiErrorType,
src/src/napi.rs lines 59-77.  Twelve explicit arms; the wildcard arm of the
source match maps the one remaining variant (napi_ok) to GenericFailure. -/
def NapiErrorType.fromStatus : napi_status → NapiErrorType
  | .napi_invalid_arg => .InvalidArg
  | .napi_object_expected => .ObjectExpected
  | .napi_string_expected => .StringExpected
  | .napi_name_expected => .NameExpected
  | .napi_function_expected => .FunctionExpected
  | .napi_number_expected => .NumberExpected
  | .napi_boolean_expected => .BooleanExpected
  | .napi_array_expected => .ArrayExpected
  | .napi_generic_failure => .GenericFailure
  | .napi_pending_exception => .PendingException
  | .napi_cancelled => .Cancelled
  | .napi_status_last => .StatusLast
  | _ => .GenericFailure

/-- Embedding of napi_extended_error_info, the record the host writes on a
get-last-error call.  The C string behind the error_message pointer is
modelled as the already decoded text (the source decodes it with a lossy
UTF-8 conversion, which is the identity on the decoded text). -/
structure napi_extended_error_info where
  error_message : String
  engine_error_code : Nat
  error_code : napi_status
  deriving DecidableEq

/-- Embedding of NapiError, src/src/napi.rs lines 22-27. -/
structure NapiError where
  error_message : String
  engine_error_code : Nat
  error_code : NapiErrorType
  deriving DecidableEq

/-- Embedding of the From napi_extended_error_info impl for NapiError,
src/src/napi.rs lines 29-41: wraps the message, the engine specific numeric
code, and the translated status kind. -/
def NapiError.fromInfo (e : napi_extended_error_info) : NapiError :=
  { error_message := e.error_message
    engine_error_code := e.engine_error_code
    error_code := NapiErrorType.fromStatus e.error_code }

/-- Engine context handle together with the behavior of the host calls the
embedded code issues through it.  The env handle is abstract in the source;
the fields record what the external host would return: the status and the
written record of napi_get_last_error_info, and the status and the written
handle of napi_get_undefined. -/
structure NapiEnv where
  last_error_status : napi_status
  last_error_info : napi_extended_error_info
  undefined_status : napi_status
  undefined_value : NapiValue
  deriving DecidableEq

/-- Embedding of get_last_error_info, src/src/napi.rs lines 86-97: calls the
host, returns the written record when the call reports napi_ok and the raw
status otherwise. -/
def get_last_error_info (env : NapiEnv) :
    Except napi_status napi_extended_error_info :=
  match env.last_error_status with
  | .napi_ok => .ok env.last_error_info
  | s => .error s

/-- Embedding of get_last_napi_error, src/src/napi.rs lines 99-103: maps the
success through the NapiError conversion and the failure status through the
NapiErrorType conversion. -/
def get_last_napi_error (env : NapiEnv) : Except NapiErrorType NapiError :=
  match get_last_error_info env with
  | .ok info => .ok (NapiError.fromInfo info)
  | .error s => .error (NapiErrorType.fromStatus s)

/-- Embedding of napi_either, src/src/napi.rs lines 79-84.  On napi_ok the
value passes through unchanged; otherwise the last napi error is fetched and
wrapped in Err.  The source calls expect on the fetch result, so a failing
fetch aborts: that is the crash case. -/
def napi_either {T : Type} (env : NapiEnv) (status : napi_status) (val : T) :
    RResult (Except NapiError T) :=
  match status with
  | .napi_ok => .ok (.ok val)
  | _ =>
    match get_last_napi_error env with
    | .ok e => .ok (.error e)
    | .error _ => .crash "error fetching last napi error"

/-- Embedding of get_undefined, src/src/napi.rs lines 124-130: asks the host
for the undefined value and routes the status through napi_either. -/
def get_undefined (env : NapiEnv) : RResult (Except NapiError NapiValue) :=
  napi_either env env.undefined_status env.undefined_value

/-- Call site information: the receiver and argument list the host holds for
one invocation.  The wrapper in the source reads it through the abstract
napi_callback_info handle. -/
structure CallbackInfo where
  supplied : List NapiValue
  deriving DecidableEq

/-- Modelled from the spec: napi_get_cb_info is host runtime code outside
this repository.  Sections 3 and 4.4 of the spec state that the host caps
the read into the fixed-capacity buffer, filling at most cap slots and
reporting the capped count; a call with more arguments than the bound
silently truncates.  Returns (reported count, filled slots). -/
def napi_get_cb_info (supplied : List NapiValue) (cap : Nat) :
    Nat × List NapiValue :=
  (min cap supplied.length, supplied.take cap)

/-- Rust range indexing into a slice, argv[0..k]: returns the first k
elements when k is within bounds and aborts with the range failure message
otherwise. -/
def sliceUpTo (l : List NapiValue) (k : Nat) : RResult (List NapiValue) :=
  if k ≤ l.length then .ok (l.take k) else .crash "slice end index out of range"

/-- Embedding of the callback trampoline wrapper inside create_function,
src/src/napi.rs lines 225-247.  The sixteen-slot stack buffer is the filled
slots from the host padded with the junk value standing for the
uninitialized remainder; argc starts at 16 and is overwritten by the host
call.  The generic conversion T::from_napi_args and the closure recovered
from the untyped user data become the fromArgs and callback parameters.  The
source unwraps the conversion result (crash on Err), runs the closure purely
for effect when present (its type returns unit), and finally unwraps
get_undefined.  The boolean component records whether the closure ran. -/
def wrapper {T : Type} (fromArgs : List NapiValue → Except NapiError T)
    (callback : Option (NapiEnv → T → Unit)) (env : NapiEnv)
    (cbinfo : CallbackInfo) (junk : NapiValue) : RResult NapiValue × Bool :=
  match sliceUpTo ((napi_get_cb_info cbinfo.supplied 16).2 ++
      List.replicate (16 - (napi_get_cb_info cbinfo.supplied 16).2.length) junk)
      (napi_get_cb_info cbinfo.supplied 16).1 with
  | .crash m => (.crash m, false)
  | .ok raw =>
    match fromArgs raw with
    | .error _ => (.crash "called unwrap on an Err value", false)
    | .ok _args =>
      match get_undefined env with
      | .crash m => (.crash m, callback.isSome)
      | .ok (.error _) => (.crash "called unwrap on an Err value", callback.isSome)
      | .ok (.ok v) => (.ok v, callback.isSome)

/-- Embedding of HelloArgs, src/examples/hello-world/src/lib.rs line 27. -/
inductive HelloArgs where
  | mk
  deriving DecidableEq

/-- Embedding of the FromNapiValues impl for HelloArgs,
src/examples/hello-world/src/lib.rs lines 28-32: ignores the context, the
receiver and every supplied value and succeeds unconditionally. -/
def HelloArgs.from_napi_values (_env : NapiEnv) (_this : NapiValue)
    (_values : List NapiValue) : Except NapiError HelloArgs :=
  .ok HelloArgs.mk

/-- Host value contents for the engine store model: the undefined value,
strings, numbers and objects.  The double-precision numeric bridge type is
modelled as a rational; every number appearing in the claims is exactly
representable as a double. -/
inductive HVal where
  | undef
  | vstr (s : String)
  | vnum (q : ℚ)
  | vobj (fields : List (String × NapiValue))
  deriving DecidableEq

/-- Engine store: the host side value heap (handle to content map, newest
first), the next fresh handle, and failure oracles recording which host
calls fail and with which error record.  The oracles model the napi_either
error path of each wrapped call. -/
structure Engine where
  store : List (NapiValue × HVal)
  next : NapiValue
  failCreateObject : Option NapiError
  failString : String → Option NapiError
  failNumber : ℚ → Option NapiError
  failSet : String → Option NapiError

/-- Allocation of a fresh handle bound to the given content. -/
def Engine.alloc (e : Engine) (v : HVal) : NapiValue × Engine :=
  (e.next, { e with store := (e.next, v) :: e.store, next := e.next + 1 })

/-- Embedding of create_object, src/src/napi.rs lines 156-162, at the engine
store level.  Modelled from the spec for the external host call
napi_create_object: the host allocates a fresh empty object; the oracle
stands for the napi_either error path. -/
def create_object (e : Engine) : Except NapiError (NapiValue × Engine) :=
  match e.failCreateObject with
  | some err => .error err
  | none => .ok (e.alloc (.vobj []))

/-- Modelled from the spec: the IntoNapiValue impl for String lives in the
repository file napi_value.rs which is absent from src.  Section 4.3 of the
spec: strings convert through the UTF-8 string constructor of the host,
producing exactly one host value or an error record. -/
def string_into_napi_value (s : String) (e : Engine) :
    Except NapiError (NapiValue × Engine) :=
  match e.failString s with
  | some err => .error err
  | none => .ok (e.alloc (.vstr s))

/-- Modelled from the spec: the IntoNapiValue impl for u64 lives in the
repository file napi_value.rs which is absent from src.  Section 4.3 of the
spec: integers convert through double-precision numeric handles. -/
def u64_into_napi_value (n : Nat) (e : Engine) :
    Except NapiError (NapiValue × Engine) :=
  match e.failNumber (n : ℚ) with
  | some err => .error err
  | none => .ok (e.alloc (.vnum (n : ℚ)))

/-- Appending a named field to an object value; identity on non objects. -/
def appendField : HVal → String → NapiValue → HVal
  | .vobj fs, name, v => .vobj (fs ++ [(name, v)])
  | h, _, _ => h

/-- Modelled from the spec: set_named_property lives in repository code
absent from src (it is imported by the example and the declaration forms).  Sections
4.3 and 4.5 of the spec: it attaches the value to the object under the given
name, extending the enumeration order, through a fallible host call. -/
def set_named_property (e : Engine) (obj : NapiValue) (name : String)
    (v : NapiValue) : Except NapiError Engine :=
  match e.failSet name with
  | some err => .error err
  | none =>
    .ok { e with
          store := e.store.map fun p =>
            if p.1 = obj then (p.1, appendField p.2 name v) else p }

/-- Association lookup in the engine store, first binding wins. -/
def lookupStore : List (NapiValue × HVal) → NapiValue → Option HVal
  | [], _ => none
  | (k, v) :: rest, h => if h = k then some v else lookupStore rest h

/-- Embedding of HelloReturn, src/examples/hello-world/src/lib.rs
lines 34-37. -/
structure HelloReturn where
  foo : String
  bar : Nat
  deriving DecidableEq

/-- Embedding of the IntoNapiValue impl for HelloReturn,
src/examples/hello-world/src/lib.rs lines 39-48: creates the empty object,
converts foo then bar, attaches foo then bar, each step with the question
mark operator (first error returns immediately), finally returns the object
handle. -/
def HelloReturn.into_napi_value (self : HelloReturn) (e : Engine) :
    Except NapiError (NapiValue × Engine) :=
  match create_object e with
  | .error err => .error err
  | .ok (object, e1) =>
    match string_into_napi_value self.foo e1 with
    | .error err => .error err
    | .ok (foo, e2) =>
      match u64_into_napi_value self.bar e2 with
      | .error err => .error err
      | .ok (bar, e3) =>
        match set_named_property e3 object "foo" foo with
        | .error err => .error err
        | .ok e4 =>
          match set_named_property e4 object "bar" bar with
          | .error err => .error err
          | .ok e5 => .ok (object, e5)

/-- Test for an embedded NUL character in a string.  CString::new in the
source checks the UTF-8 bytes for a zero byte; a zero byte occurs in UTF-8
exactly when the character U+0000 occurs. -/
def hasNul (s : String) : Bool :=
  s.data.any fun c => c.toNat == 0

/-- Embedding of std::ffi::NulError. -/
inductive NulError where
  | mk
  deriving DecidableEq

/-- Embedding of CString::new: rejects strings with an embedded NUL. -/
def cstring_new (s : String) : Except NulError String :=
  if hasNul s then .error NulError.mk else .ok s

/-- Registration function pointer, abstract; modelled as a natural number. -/
abbrev NapiAddonRegisterFn := Nat

/-- Embedding of NapiModule, src/src/napi.rs lines 13-20.  The field
register_func has the bindgen type napi_addon_register_func, which is an
Option around the raw function pointer. -/
structure NapiModule where
  version : Int
  flags : Nat
  filename : String
  register_func : Option NapiAddonRegisterFn
  modname : String
  deriving DecidableEq

/-- Embedding of the C descriptor napi_module the source fills and hands to
napi_module_register (the nm_priv and reserved fields, always null, are
omitted). -/
structure napi_module where
  nm_version : Int
  nm_flags : Nat
  nm_filename : String
  nm_register_func : Option NapiAddonRegisterFn
  nm_modname : String
  deriving DecidableEq

/-- Embedding of module_register, src/src/napi.rs lines 105-122.  The
descriptor literal evaluates its fields in source order: the filename
conversion (question mark on CString::new), then the unwrap of
register_func (crash when absent), then the modname conversion (try form).
On success the source passes the descriptor to napi_module_register and
returns Ok; the model returns the descriptor handed to the loader as the
ok payload. -/
def module_register (m : NapiModule) : RResult (Except NulError napi_module) :=
  match cstring_new m.filename with
  | .error e => .ok (.error e)
  | .ok fname =>
    match m.register_func with
    | none => .crash "called unwrap on None"
    | some f =>
      match cstring_new m.modname with
      | .error e => .ok (.error e)
      | .ok mname =>
        .ok (.ok { nm_version := m.version, nm_flags := m.flags,
                   nm_filename := fname, nm_register_func := some f,
                   nm_modname := mname })

/-- Embedding of the example add function,
src/examples/hello-world/src/lib.rs lines 15-17: the unchecked u64 sum
a + a, wrapping modulo 2 to the 64 under release-mode wrapping semantics. -/
def add (_env : NapiEnv) (_this : NapiValue) (a : Nat) : Nat :=
  (a + a) % 2 ^ 64

/-- Concrete extended error record used by the witnesses. -/
def info0 : napi_extended_error_info :=
  { error_message := "boom", engine_error_code := 3,
    error_code := .napi_string_expected }

/-- Concrete healthy environment used by the witnesses. -/
def env0 : NapiEnv :=
  { last_error_status := .napi_ok, last_error_info := info0,
    undefined_status := .napi_ok, undefined_value := 7 }

/-- Concrete environment whose get-last-error host call itself fails. -/
def env_bad : NapiEnv :=
  { last_error_status := .napi_generic_failure, last_error_info := info0,
    undefined_status := .napi_ok, undefined_value := 7 }

/-- Concrete conversion error used by the witnesses. -/
def err0 : NapiError :=
  { error_message := "bad args", engine_error_code := 0,
    error_code := .InvalidArg }

/-- Concrete closure used by the witnesses. -/
def cbUnit : NapiEnv → HelloArgs → Unit := fun _ _ => ()

/-- Concrete empty engine with no injected failures. -/
def engine0 : Engine :=
  { store := [], next := 0, failCreateObject := none,
    failString := fun _ => none, failNumber := fun _ => none,
    failSet := fun _ => none }

/-- Characterization of the trampoline used by the claim proofs: the slice
handed to the argument conversion is exactly the front sixteen supplied
values, the junk padding never leaks into the result, and the slice
operation never aborts. -/
theorem wrapper_take_sixteen {T : Type}
    (fromArgs : List NapiValue → Except NapiError T)
    (callback : Option (NapiEnv → T → Unit)) (env : NapiEnv)
    (cbinfo : CallbackInfo) (junk : NapiValue) :
    wrapper fromArgs callback env cbinfo junk =
      match fromArgs (cbinfo.supplied.take 16) with
      | .error _ => (.crash "called unwrap on an Err value", false)
      | .ok _ =>
        match get_undefined env with
        | .crash m => (.crash m, callback.isSome)
        | .ok (.error _) => (.crash "called unwrap on an Err value", callback.isSome)
        | .ok (.ok v) => (.ok v, callback.isSome) := by
  have h1 : (cbinfo.supplied.take 16).length = min 16 cbinfo.supplied.length :=
    List.length_take 16 cbinfo.supplied
  have h2 : min 16 cbinfo.supplied.length ≤
      (cbinfo.supplied.take 16 ++
        List.replicate (16 - (cbinfo.supplied.take 16).length) junk).length := by
    simp only [List.length_append, List.length_replicate, h1]
    omega
  have h3 : (cbinfo.supplied.take 16 ++
      List.replicate (16 - (cbinfo.supplied.take 16).length) junk).take
        (min 16 cbinfo.supplied.length) = cbinfo.supplied.take 16 := by
    conv_lhs => rw [← h1]
    exact List.take_left _ _
  unfold wrapper
  simp only [napi_get_cb_info, sliceUpTo, if_pos h2, h3]

/-- Claim C1: the claim states that on a failing argument conversion the
trampoline does not invoke the closure and still hands a valid host value
back that surfaces the error.  The source instead unwraps the conversion
result: this theorem shows that whenever from_napi_args fails on the
truncated slice, the trampoline aborts with the unwrap failure (a crash, no
host value is produced) and the closure is not invoked (flag false).  The
first half of the claim holds, the second is violated: the spec marks this
as an unenforced source gap, so the claim is settled as a code bug. -/
theorem trampoline_conversion_failure_crashes {T : Type}
    (fromArgs : List NapiValue → Except NapiError T)
    (callback : Option (NapiEnv → T → Unit)) (env : NapiEnv)
    (cbinfo : CallbackInfo) (junk : NapiValue) (err : NapiError)
    (h : fromArgs (cbinfo.supplied.take 16) = .error err) :
    wrapper fromArgs callback env cbinfo junk =
      (.crash "called unwrap on an Err value", false) := by
  rw [wrapper_take_sixteen, h]

/-- Witness for C1 at a concrete failing conversion: the trampoline crashes
and the concrete closure is not invoked. -/
theorem trampoline_conversion_failure_crashes_witness :
    wrapper (fun _ => Except.error err0) (some cbUnit) env0
      (CallbackInfo.mk [3, 4]) 0 =
      (.crash "called unwrap on an Err value", false) :=
  trampoline_conversion_failure_crashes (fun _ => Except.error err0)
    (some cbUnit) env0 (CallbackInfo.mk [3, 4]) 0 err0 rfl

/-- Claim C2: the read of the arguments of the call is capped at the
sixteen-slot stack buffer.  First conjunct: the slice operation the wrapper
performs succeeds (never indexes out of bounds, never aborts) and yields
exactly the front sixteen supplied values.  Second conjunct: two calls whose
supplied arguments agree on the front sixteen values produce identical
trampoline results whatever the excess arguments and whatever junk fills the
uninitialized buffer slots, so excess arguments are silently truncated. -/
theorem trampoline_argument_read_capped {T : Type}
    (fromArgs : List NapiValue → Except NapiError T)
    (callback : Option (NapiEnv → T → Unit)) (env : NapiEnv)
    (cbinfo : CallbackInfo) (junk : NapiValue) :
    sliceUpTo ((napi_get_cb_info cbinfo.supplied 16).2 ++
        List.replicate (16 - (napi_get_cb_info cbinfo.supplied 16).2.length) junk)
        (napi_get_cb_info cbinfo.supplied 16).1
      = .ok (cbinfo.supplied.take 16)
    ∧ ∀ (cbinfo2 : CallbackInfo) (junk2 : NapiValue),
        cbinfo.supplied.take 16 = cbinfo2.supplied.take 16 →
        wrapper fromArgs callback env cbinfo junk =
          wrapper fromArgs callback env cbinfo2 junk2 := by
  constructor
  · have h1 : (cbinfo.supplied.take 16).length = min 16 cbinfo.supplied.length :=
      List.length_take 16 cbinfo.supplied
    have h2 : min 16 cbinfo.supplied.length ≤
        (cbinfo.supplied.take 16 ++
          List.replicate (16 - (cbinfo.supplied.take 16).length) junk).length := by
      simp only [List.length_append, List.length_replicate, h1]
      omega
    have h3 : (cbinfo.supplied.take 16 ++
        List.replicate (16 - (cbinfo.supplied.take 16).length) junk).take
          (min 16 cbinfo.supplied.length) = cbinfo.supplied.take 16 := by
      conv_lhs => rw [← h1]
      exact List.take_left _ _
    simp only [napi_get_cb_info, sliceUpTo, if_pos h2, h3]
  · intro cbinfo2 junk2 h
    rw [wrapper_take_sixteen, wrapper_take_sixteen, h]

/-- Witness for C2: a call with twenty arguments and one with eighteen
arguments agreeing on the front sixteen, with different junk padding,
produce the same result, and the slice of the twenty-argument call succeeds
with the front sixteen values. -/
theorem trampoline_argument_read_capped_witness :
    sliceUpTo ((napi_get_cb_info
        [0, 1, 2, 3, 4, 5, 6, 7, 8, 9, 10, 11, 12, 13, 14, 15, 16, 17, 18, 19] 16).2 ++
        List.replicate (16 - (napi_get_cb_info
        [0, 1, 2, 3, 4, 5, 6, 7, 8, 9, 10, 11, 12, 13, 14, 15, 16, 17, 18, 19] 16).2.length) 5)
        (napi_get_cb_info
        [0, 1, 2, 3, 4, 5, 6, 7, 8, 9, 10, 11, 12, 13, 14, 15, 16, 17, 18, 19] 16).1
      = .ok [0, 1, 2, 3, 4, 5, 6, 7, 8, 9, 10, 11, 12, 13, 14, 15]
    ∧ wrapper (fun _ => Except.ok HelloArgs.mk) none env0
        (CallbackInfo.mk
          [0, 1, 2, 3, 4, 5, 6, 7, 8, 9, 10, 11, 12, 13, 14, 15, 16, 17, 18, 19]) 5 =
      wrapper (fun _ => Except.ok HelloArgs.mk) none env0
        (CallbackInfo.mk
          [0, 1, 2, 3, 4, 5, 6, 7, 8, 9, 10, 11, 12, 13, 14, 15, 90, 91]) 9 :=
  ⟨(trampoline_argument_read_capped (fun _ => Except.ok HelloArgs.mk) none env0
      (CallbackInfo.mk
        [0, 1, 2, 3, 4, 5, 6, 7, 8, 9, 10, 11, 12, 13, 14, 15, 16, 17, 18, 19]) 5).1,
   (trampoline_argument_read_capped (fun _ => Except.ok HelloArgs.mk) none env0
      (CallbackInfo.mk
        [0, 1, 2, 3, 4, 5, 6, 7, 8, 9, 10, 11, 12, 13, 14, 15, 16, 17, 18, 19]) 5).2
      (CallbackInfo.mk
        [0, 1, 2, 3, 4, 5, 6, 7, 8, 9, 10, 11, 12, 13, 14, 15, 90, 91]) 9 rfl⟩

/-- Claim C5: the claim states that after a successful conversion the
trampoline converts the closure return value through IntoHostValue and
returns undefined only when the closure produces no meaningful value.  In
the source the closure type of create_function returns unit and the wrapper
ends with get_undefined(env).unwrap(): this theorem shows the trampoline
result is the undefined handle of the host, independent of the closure,
whenever conversion succeeds and the undefined fetch reports ok.  No return
value conversion exists, contradicting the claim and the example functions
of the repository (which return u64 and HelloReturn), so the claim is
settled as a code bug. -/
theorem trampoline_always_returns_undefined {T : Type}
    (fromArgs : List NapiValue → Except NapiError T)
    (callback : Option (NapiEnv → T → Unit)) (env : NapiEnv)
    (cbinfo : CallbackInfo) (junk : NapiValue) (t : T)
    (h : fromArgs (cbinfo.supplied.take 16) = .ok t)
    (hu : env.undefined_status = .napi_ok) :
    wrapper fromArgs callback env cbinfo junk =
      (.ok env.undefined_value, callback.isSome) := by
  rw [wrapper_take_sixteen, h]
  simp [get_undefined, napi_either, hu]

/-- Witness for C5: a concrete successful zero-argument invocation with a
present closure returns the undefined handle of env0 (which is 7) and the
closure runs. -/
theorem trampoline_always_returns_undefined_witness :
    wrapper (fun _ => Except.ok HelloArgs.mk) (some cbUnit) env0
      (CallbackInfo.mk []) 0 = (.ok 7, true) :=
  trampoline_always_returns_undefined (fun _ => Except.ok HelloArgs.mk)
    (some cbUnit) env0 (CallbackInfo.mk []) 0 HelloArgs.mk rfl rfl

/-- Counterexample for C3: the claim states that every status value outside
the known set (invalid argument, object, string, name, function, number,
boolean, array expected, generic failure, pending exception, cancelled) maps
to generic failure.  The sentinel napi_status_last is outside that set, yet
the source maps it to the distinct StatusLast kind, not to GenericFailure. -/
theorem status_last_not_generic_failure :
    NapiErrorType.fromStatus .napi_status_last = .StatusLast
    ∧ NapiErrorType.fromStatus .napi_status_last ≠ .GenericFailure := by
  decide

/-- Claim C3 (amended): the status conversion is a total function (total by
construction in this embedding, so no input can crash it) mapping each of
the eleven known error statuses to its matching kind, the sentinel
napi_status_last to the dedicated StatusLast kind rather than generic
failure, and the one remaining status (napi_ok, through the wildcard arm)
to generic failure.  The conjunction below covers all thirteen values of
the status type. -/
theorem status_mapping_total :
    NapiErrorType.fromStatus .napi_invalid_arg = .InvalidArg
    ∧ NapiErrorType.fromStatus .napi_object_expected = .ObjectExpected
    ∧ NapiErrorType.fromStatus .napi_string_expected = .StringExpected
    ∧ NapiErrorType.fromStatus .napi_name_expected = .NameExpected
    ∧ NapiErrorType.fromStatus .napi_function_expected = .FunctionExpected
    ∧ NapiErrorType.fromStatus .napi_number_expected = .NumberExpected
    ∧ NapiErrorType.fromStatus .napi_boolean_expected = .BooleanExpected
    ∧ NapiErrorType.fromStatus .napi_array_expected = .ArrayExpected
    ∧ NapiErrorType.fromStatus .napi_generic_failure = .GenericFailure
    ∧ NapiErrorType.fromStatus .napi_pending_exception = .PendingException
    ∧ NapiErrorType.fromStatus .napi_cancelled = .Cancelled
    ∧ NapiErrorType.fromStatus .napi_status_last = .StatusLast
    ∧ NapiErrorType.fromStatus .napi_ok = .GenericFailure := by
  decide

/-- Claim C4: napi_either passes the value through unchanged on napi_ok, and
on any other status, provided the get-last-error host call of the context
succeeds (the case where it fails is claim C7), returns an error record
wrapping the message, the engine specific numeric code, and the translated
status kind of the last-error record of the context. -/
theorem napi_either_contract {T : Type} (env : NapiEnv) (status : napi_status)
    (val : T) :
    (status = .napi_ok → napi_either env status val = .ok (.ok val))
    ∧ (status ≠ .napi_ok → env.last_error_status = .napi_ok →
        napi_either env status val = .ok (.error
          { error_message := env.last_error_info.error_message
            engine_error_code := env.last_error_info.engine_error_code
            error_code := NapiErrorType.fromStatus env.last_error_info.error_code })) := by
  constructor
  · intro h
    subst h
    rfl
  · intro hs he
    cases status with
    | napi_ok => exact absurd rfl hs
    | _ =>
      simp [napi_either, get_last_napi_error, get_last_error_info, he,
        NapiError.fromInfo]

/-- Witness for C4: concrete pass-through on napi_ok and concrete error
wrapping on an invalid-argument status against env0, whose last-error
record is info0 (message boom, engine code 3, raw status string-expected). -/
theorem napi_either_contract_witness :
    napi_either env0 .napi_ok (5 : Nat) = .ok (.ok 5)
    ∧ napi_either env0 .napi_invalid_arg (5 : Nat) = .ok (.error
        { error_message := "boom", engine_error_code := 3,
          error_code := .StringExpected }) := by
  refine ⟨(napi_either_contract env0 .napi_ok (5 : Nat)).1 rfl, ?_⟩
  exact (napi_either_contract env0 .napi_invalid_arg (5 : Nat)).2
    (by decide) rfl

/-- Claim C7: when a non-ok status was observed and the get-last-error host
call itself fails, the bridge is fatal to the wrapped operation: it aborts
with the expect failure (the crash propagates to the caller as the failure
of the whole operation, never a success value), and it never re-enters the
error-fetch path: the third conjunct shows the result is a function of the
single error-fetch outcome, so no retry or recursion can occur (and every
definition in this embedding is structurally terminating). -/
theorem error_fetch_failure_fatal {T : Type} (env : NapiEnv)
    (status : napi_status) (val : T) (hs : status ≠ .napi_ok)
    (k : NapiErrorType) (hf : get_last_napi_error env = .error k) :
    napi_either env status val = .crash "error fetching last napi error"
    ∧ (∀ v : T, napi_either env status val ≠ .ok (.ok v))
    ∧ (∀ env2 : NapiEnv, get_last_napi_error env2 = get_last_napi_error env →
        napi_either env2 status val = napi_either env status val) := by
  have hcrash : napi_either env status val =
      .crash "error fetching last napi error" := by
    cases status with
    | napi_ok => exact absurd rfl hs
    | _ => simp [napi_either, hf]
  refine ⟨hcrash, ?_, ?_⟩
  · intro v h
    rw [hcrash] at h
    exact RResult.noConfusion h
  · intro env2 h2
    cases status with
    | napi_ok => exact absurd rfl hs
    | _ => simp [napi_either, h2]

/-- Witness for C7: env_bad reports generic failure from the get-last-error
call itself; the bridge on an invalid-argument status aborts with the expect
message. -/
theorem error_fetch_failure_fatal_witness :
    napi_either env_bad .napi_invalid_arg (0 : Nat) =
      .crash "error fetching last napi error" :=
  (error_fetch_failure_fatal env_bad .napi_invalid_arg (0 : Nat) (by decide)
    NapiErrorType.GenericFailure rfl).1

/-- Arithmetic helper: adding a positive amount moves a natural number. -/
theorem nat_add_pos_ne (a k : Nat) (hk : 0 < k) : ¬ (a + k = a) := by omega

/-- Arithmetic helper, symmetric form. -/
theorem nat_ne_add_pos (a k : Nat) (hk : 0 < k) : ¬ (a = a + k) := by omega

/-- Arithmetic helper: distinct offsets from the same base differ. -/
theorem nat_add_ne_add (a i j : Nat) (h : i ≠ j) : ¬ (a + i = a + j) := by omega

/-- Claim C6: converting a HelloReturn struct first creates the empty
object, converts foo then bar, attaches foo then bar (declaration order), and
returns the object handle, so the enumerated key order is [foo, bar] with the
string value and the numeric value of the fields; and a failure of any step
aborts the whole conversion with the first error record encountered in
execution order, returning no incomplete object.  The success conjunct is
stated over an engine with an empty heap and arbitrary next handle and
failure oracles; the five failure conjuncts inject a failure at each step in
turn. -/
theorem hello_return_conversion (fooS : String) (barN : Nat) (e : Engine) :
    (e.store = [] → e.failCreateObject = none → e.failString fooS = none →
     e.failNumber (barN : ℚ) = none → e.failSet "foo" = none →
     e.failSet "bar" = none →
     ∃ e5 : Engine,
       HelloReturn.into_napi_value { foo := fooS, bar := barN } e = .ok (e.next, e5)
       ∧ lookupStore e5.store e.next =
           some (HVal.vobj [("foo", e.next + 1), ("bar", e.next + 2)])
       ∧ lookupStore e5.store (e.next + 1) = some (HVal.vstr fooS)
       ∧ lookupStore e5.store (e.next + 2) = some (HVal.vnum (barN : ℚ)))
    ∧ (∀ err : NapiError, e.failCreateObject = some err →
        HelloReturn.into_napi_value { foo := fooS, bar := barN } e = .error err)
    ∧ (∀ err : NapiError, e.failCreateObject = none →
        e.failString fooS = some err →
        HelloReturn.into_napi_value { foo := fooS, bar := barN } e = .error err)
    ∧ (∀ err : NapiError, e.failCreateObject = none → e.failString fooS = none →
        e.failNumber (barN : ℚ) = some err →
        HelloReturn.into_napi_value { foo := fooS, bar := barN } e = .error err)
    ∧ (∀ err : NapiError, e.failCreateObject = none → e.failString fooS = none →
        e.failNumber (barN : ℚ) = none → e.failSet "foo" = some err →
        HelloReturn.into_napi_value { foo := fooS, bar := barN } e = .error err)
    ∧ (∀ err : NapiError, e.failCreateObject = none → e.failString fooS = none →
        e.failNumber (barN : ℚ) = none → e.failSet "foo" = none →
        e.failSet "bar" = some err →
        HelloReturn.into_napi_value { foo := fooS, bar := barN } e = .error err) := by
  have hA : ¬ (e.next + 1 = e.next) := nat_add_pos_ne e.next 1 (by omega)
  have hB : ¬ (e.next + 1 + 1 = e.next) := nat_add_pos_ne e.next 2 (by omega)
  have hC : ¬ (e.next = e.next + 1) := nat_ne_add_pos e.next 1 (by omega)
  have hD : ¬ (e.next = e.next + 2) := nat_ne_add_pos e.next 2 (by omega)
  have hE : ¬ (e.next + 1 = e.next + 2) := nat_add_ne_add e.next 1 2 (by omega)
  refine ⟨?_, ?_, ?_, ?_, ?_, ?_⟩
  · intro h0 h1 h2 h3 h4 h5
    refine ⟨{ e with
        store := [(e.next + 2, HVal.vnum (barN : ℚ)), (e.next + 1, HVal.vstr fooS),
                  (e.next, HVal.vobj [("foo", e.next + 1), ("bar", e.next + 2)])],
        next := e.next + 3 }, ?_, ?_, ?_, ?_⟩
    · simp [HelloReturn.into_napi_value, create_object, string_into_napi_value,
        u64_into_napi_value, set_named_property, Engine.alloc, appendField,
        h0, h1, h2, h3, h4, h5, hA, hB]
    · simp [lookupStore, hC, hD]
    · simp [lookupStore, hE]
    · simp [lookupStore]
  · intro err h1
    simp [HelloReturn.into_napi_value, create_object, h1]
  · intro err h1 h2
    simp [HelloReturn.into_napi_value, create_object, string_into_napi_value,
      Engine.alloc, h1, h2]
  · intro err h1 h2 h3
    simp [HelloReturn.into_napi_value, create_object, string_into_napi_value,
      u64_into_napi_value, Engine.alloc, h1, h2, h3]
  · intro err h1 h2 h3 h4
    simp [HelloReturn.into_napi_value, create_object, string_into_napi_value,
      u64_into_napi_value, set_named_property, Engine.alloc, h1, h2, h3, h4]
  · intro err h1 h2 h3 h4 h5
    simp [HelloReturn.into_napi_value, create_object, string_into_napi_value,
      u64_into_napi_value, set_named_property, Engine.alloc, h1, h2, h3, h4, h5]

/-- Witness for C6: converting the concrete struct with foo HELLO and bar 23
on the empty engine yields the object handle 0 whose key order is
[foo, bar] with the string HELLO at foo and the number 23 at bar. -/
theorem hello_return_conversion_witness :
    ∃ e5 : Engine,
      HelloReturn.into_napi_value { foo := "HELLO", bar := 23 } engine0 =
        .ok (0, e5)
      ∧ lookupStore e5.store 0 = some (HVal.vobj [("foo", 1), ("bar", 2)])
      ∧ lookupStore e5.store 1 = some (HVal.vstr "HELLO")
      ∧ lookupStore e5.store 2 = some (HVal.vnum ((23 : Nat) : ℚ)) :=
  (hello_return_conversion "HELLO" 23 engine0).1 rfl rfl rfl rfl rfl rfl

/-- Claim C8: constructing the zero-argument HelloArgs type succeeds
unconditionally for every engine context, receiver, and supplied value
slice of any length, ignoring all supplied values; the second conjunct
spells out the five-argument instance of the spec. -/
theorem hello_args_permissive_arity (env : NapiEnv) (receiver : NapiValue)
    (values : List NapiValue) :
    HelloArgs.from_napi_values env receiver values = .ok HelloArgs.mk
    ∧ ∀ v1 v2 v3 v4 v5 : NapiValue,
        HelloArgs.from_napi_values env receiver [v1, v2, v3, v4, v5] =
          .ok HelloArgs.mk :=
  ⟨rfl, fun _ _ _ _ _ => rfl⟩

/-- Counterexample for C9: the claim states that for strings without an
embedded NUL the function builds the descriptor, hands it to the loader and
returns Ok.  A module with clean strings but an absent register function
pointer makes module_register unwrap None and abort instead: no Ok is
returned and nothing reaches the loader. -/
theorem module_register_counterexample :
    hasNul "f" = false ∧ hasNul "m" = false
    ∧ module_register
        { version := 1, flags := 0, filename := "f", register_func := none,
          modname := "m" } = .crash "called unwrap on None"
    ∧ ∀ d : napi_module, module_register
        { version := 1, flags := 0, filename := "f", register_func := none,
          modname := "m" } ≠ .ok (.ok d) := by
  refine ⟨rfl, rfl, rfl, ?_⟩
  intro d h
  simp [module_register, cstring_new, hasNul] at h

/-- Claim C9 (amended): module_register returns a NulError when the filename
holds an embedded NUL; with a clean filename it unwraps the register
function, aborting when it is absent (this happens before the module name is
validated, because the descriptor fields evaluate in source order); with a
clean filename and a present register function it returns a NulError when
the module name holds an embedded NUL; and with both strings clean and the
register function present it builds the descriptor, hands it to the loader
and returns Ok. -/
theorem module_register_amended (m : NapiModule) :
    (hasNul m.filename = true → module_register m = .ok (.error NulError.mk))
    ∧ (hasNul m.filename = false → m.register_func = none →
        module_register m = .crash "called unwrap on None")
    ∧ (∀ f : NapiAddonRegisterFn, hasNul m.filename = false →
        m.register_func = some f → hasNul m.modname = true →
        module_register m = .ok (.error NulError.mk))
    ∧ (∀ f : NapiAddonRegisterFn, hasNul m.filename = false →
        m.register_func = some f → hasNul m.modname = false →
        module_register m = .ok (.ok
          { nm_version := m.version, nm_flags := m.flags,
            nm_filename := m.filename, nm_register_func := some f,
            nm_modname := m.modname })) := by
  refine ⟨?_, ?_, ?_, ?_⟩
  · intro h1
    simp [module_register, cstring_new, h1]
  · intro h1 h2
    simp [module_register, cstring_new, h1, h2]
  · intro f h1 h2 h3
    simp [module_register, cstring_new, h1, h2, h3]
  · intro f h1 h2 h3
    simp [module_register, cstring_new, h1, h2, h3]

/-- Witness for C9: a clean concrete module with a present register function
is registered, handing the built descriptor to the loader. -/
theorem module_register_amended_witness :
    module_register
      { version := 1, flags := 0, filename := "helloworld",
        register_func := some 5, modname := "helloworld" } =
      .ok (.ok { nm_version := 1, nm_flags := 0, nm_filename := "helloworld",
                 nm_register_func := some 5, nm_modname := "helloworld" }) :=
  (module_register_amended
    { version := 1, flags := 0, filename := "helloworld",
      register_func := some 5, modname := "helloworld" }).2.2.2 5 rfl rfl rfl

/-- Claim C10: the example add function computes the unchecked 64-bit sum
a + a: below 2 to the 63 it returns exactly the double of its argument,
while at or above 2 to the 63 the sum wraps modulo 2 to the 64 and the
doubling contract fails. -/
theorem add_doubles_below_overflow (env : NapiEnv) (receiver : NapiValue)
    (a : Nat) (ha : a < 2 ^ 64) :
    add env receiver a = (a + a) % 2 ^ 64
    ∧ (a < 2 ^ 63 → add env receiver a = 2 * a)
    ∧ (2 ^ 63 ≤ a → add env receiver a = a + a - 2 ^ 64
        ∧ add env receiver a ≠ 2 * a) := by
  have h64 : (2 : Nat) ^ 64 = 18446744073709551616 := by norm_num
  have h63 : (2 : Nat) ^ 63 = 9223372036854775808 := by norm_num
  refine ⟨rfl, ?_, ?_⟩
  · intro h
    simp only [add, h64]
    simp only [h64, h63] at ha h
    omega
  · intro h
    simp only [add, h64]
    simp only [h64] at ha
    simp only [h63] at h
    constructor
    · omega
    · omega

/-- Witness for C10: add on 21 returns 42, and add at 2 to the 63 is not the
double of its argument (the sum wrapped). -/
theorem add_doubles_below_overflow_witness :
    add env0 0 21 = 42
    ∧ add env0 0 (2 ^ 63) ≠ 2 * 2 ^ 63 := by
  constructor
  · have h := (add_doubles_below_overflow env0 0 21 (by norm_num)).2.1 (by norm_num)
    simpa using h
  · exact ((add_doubles_below_overflow env0 0 (2 ^ 63) (by norm_num)).2.2
      (le_refl _)).2

end NodeApi
